import Mathlib

/-!
Verification development for the MAESTROS community backend.

This file gives a shallow embedding, in Lean, of the application-lifecycle
core of the backend: payload validation and the scoring engine
(`src/routers/applications.py`), the eligibility evaluator and the
Discord-integrated accept/reject endpoints
(`src/app/api/application_manager.py`), and the database index setup
(`src/database_indexes.py`).  Python dictionaries holding submitted form
data are modelled as association lists of JSON-scalar values; database
side effects are modelled by explicit state passing, where an HTTP-error
return carries the database state at the moment of the raise; Discord
side effects are modelled by an environment of success/failure flags and
an effect trace, mirroring the try/except structure of the source.
-/

set_option maxRecDepth 40000

namespace Maestros

instance {e a : Type _} [DecidableEq e] [DecidableEq a] : DecidableEq (Except e a) := fun x y =>
  match x, y with
  | .ok u, .ok v =>
    if h : u = v then isTrue (by rw [h]) else isFalse (by intro hc; cases hc; exact h rfl)
  | .error u, .error v =>
    if h : u = v then isTrue (by rw [h]) else isFalse (by intro hc; cases hc; exact h rfl)
  | .ok _, .error _ => isFalse (by intro hc; cases hc)
  | .error _, .ok _ => isFalse (by intro hc; cases hc)

/-! ## Python scalar values and dictionary payloads -/

/-- A JSON-scalar Python value as found in a submitted form payload:
a string, an integer, or `None`. -/
inductive PyVal where
  | vStr (s : String)
  | vInt (n : Int)
  | vNone
deriving DecidableEq, Repr

/-- A Python dict payload: field name to value, first binding wins on lookup. -/
def Payload := List (String × PyVal)

instance : DecidableEq Payload := by
  unfold Payload
  infer_instance

instance : Repr Payload := by
  unfold Payload
  infer_instance

/-- `k in data` plus `data[k]`: dictionary lookup. -/
def pyGet (data : Payload) (k : String) : Option PyVal :=
  List.lookup k data

/-- `data.get(k, default)`. -/
def pyGetD (data : Payload) (k : String) (dflt : PyVal) : PyVal :=
  (pyGet data k).getD dflt

/-- Python truthiness of a scalar value: empty string, `0` and `None` are falsy. -/
def pyTruthy : PyVal → Bool
  | .vStr s => !s.isEmpty
  | .vInt n => n != 0
  | .vNone => false

/-- Lowercasing through the character list; Python `s.lower()` on the ASCII
strings this code handles. -/
def pyLower (s : String) : String :=
  String.mk (s.toList.map Char.toLower)

/-- Strip leading and trailing whitespace through the character list;
Python `s.strip()`. -/
def pyStrip (s : String) : String :=
  String.mk (((s.toList.dropWhile Char.isWhitespace).reverse.dropWhile
    Char.isWhitespace).reverse)

/-- Python `min` on naturals, written out so concrete goals evaluate. -/
def pyMin (a b : Nat) : Nat :=
  if a ≤ b then a else b

/-- Value of a decimal digit character. -/
def digitVal (c : Char) : Option Nat :=
  if c.isDigit then some (c.toNat - 48) else none

/-- A nonempty all-digit run, as a number. -/
def parseDigits : List Char → Option Nat
  | [] => none
  | cs =>
    if cs.all Char.isDigit then
      some (cs.foldl (fun acc c => acc * 10 + (c.toNat - 48)) 0)
    else
      none

/-- Python `int(s)` on a string: optional surrounding whitespace,
optional sign, then decimal digits; anything else raises `ValueError`. -/
def parsePyInt (s : String) : Option Int :=
  match (pyStrip s).toList with
  | '+' :: rest => (parseDigits rest).map Int.ofNat
  | '-' :: rest => (parseDigits rest).map (fun n => -(n : Int))
  | cs => (parseDigits cs).map Int.ofNat

/-- Python `int(x)` on a scalar value; `.error ()` models the raised
`ValueError`/`TypeError`. -/
def pyToInt : PyVal → Except Unit Int
  | .vInt n => .ok n
  | .vStr s =>
    match parsePyInt s with
    | some n => .ok n
    | none => .error ()
  | .vNone => .error ()

/-- A value used where the code needs a string (`len(x)`, `x.lower()`,
`x.strip()`, ...); `.error ()` models the raised `TypeError`/`AttributeError`
on non-string values. -/
def pyStrOf : PyVal → Except Unit String
  | .vStr s => .ok s
  | _ => .error ()

/-- Python `str(x)`. -/
def pyStr : PyVal → String
  | .vStr s => s
  | .vInt n => toString n
  | .vNone => "None"

/-- Does `pre` occur at the head of `l`? -/
def startsWithL : List Char → List Char → Bool
  | [], _ => true
  | _ :: _, [] => false
  | a :: as, b :: bs => a == b && startsWithL as bs

/-- Does `sub` occur contiguously anywhere in `l`? -/
def hasSubstrL (sub : List Char) : List Char → Bool
  | [] => sub.isEmpty
  | b :: bs => startsWithL sub (b :: bs) || hasSubstrL sub bs

/-- Python `sub in s` on strings: contiguous-substring containment. -/
def pyIn (sub s : String) : Bool :=
  hasSubstrL sub.toList s.toList

/-- One step of Python `str.title()`: uppercase an alphabetic character that
follows a non-alphabetic one, lowercase the rest. -/
def titleCaseL : List Char → Bool → List Char
  | [], _ => []
  | c :: rest, prevAlpha =>
    (if c.isAlpha then (if prevAlpha then c.toLower else c.toUpper) else c)
      :: titleCaseL rest c.isAlpha

/-- Python `s.title()`. -/
def pyTitle (s : String) : String :=
  String.mk (titleCaseL s.toList false)

/-- Python `s.replace("Z", "+00:00")`, the one `str.replace` call site in the
validator: every occurrence of the single character `Z` is expanded. -/
def replaceZ (s : String) : String :=
  String.mk (s.toList.foldr
    (fun c acc => (if c == 'Z' then "+00:00".toList else [c]) ++ acc) [])

/-! ## Scoring engine — `analyze_application` in `src/routers/applications.py` -/

/-- The fixed vocabulary of motivation quality keywords. -/
def quality_keywords : List String :=
  ["competitive", "teamwork", "improve", "learn", "community",
   "passion", "dedicated", "skilled", "strategic", "professional"]

/-- The fixed vocabulary of contribution keywords. -/
def contribution_keywords : List String :=
  ["help", "teach", "mentor", "organize", "lead",
   "content", "stream", "coach", "guide", "support"]

/-- `sum(1 for keyword in keywords if keyword.lower() in text.lower())`. -/
def countKeywordMatches (keywords : List String) (text : String) : Nat :=
  List.countP (fun k => pyIn (pyLower k) (pyLower text)) keywords

/-- One scored factor: points, reason text, strengths appended, weaknesses
appended — exactly the data each branch of the source writes. -/
structure Factor where
  points : Nat
  reason : String
  strengths : List String
  weaknesses : List String
deriving DecidableEq, Repr

/-- Gaming-experience factor (max 40 points), tiered on `gameplay_hours`. -/
def gameplayFactor (gameplay_hours : Int) : Factor :=
  if gameplay_hours > 1000 then
    ⟨40, "Extensive gaming experience", ["Very experienced gamer"], []⟩
  else if gameplay_hours > 500 then
    ⟨30, "Good gaming experience", ["Experienced gamer"], []⟩
  else if gameplay_hours > 100 then
    ⟨20, "Moderate gaming experience", [], []⟩
  else
    ⟨10, "Limited gaming experience", [], ["Limited gaming hours"]⟩

/-- Motivation factor (max 30 points), on `reason` length and keyword count. -/
def motivationFactor (reason_length keyword_matches : Nat) : Factor :=
  if reason_length > 200 ∧ keyword_matches ≥ 3 then
    ⟨30, "Excellent motivation", ["Strong motivation and clear goals"], []⟩
  else if reason_length > 100 ∧ keyword_matches ≥ 2 then
    ⟨20, "Good motivation", ["Good understanding of community"], []⟩
  else if reason_length > 50 then
    ⟨10, "Basic motivation", [], []⟩
  else
    ⟨5, "Weak motivation", [], ["Lacks detailed motivation"]⟩

/-- Contribution factor (max 20 points), on `contribution` length and
keyword count. -/
def contributionFactor (contribution_length contribution_matches : Nat) : Factor :=
  if contribution_length > 100 ∧ contribution_matches ≥ 2 then
    ⟨20, "Valuable contributions planned", ["Ready to contribute actively"], []⟩
  else if contribution_length > 50 ∧ contribution_matches ≥ 1 then
    ⟨15, "Some contributions planned", [], []⟩
  else
    ⟨5, "Limited contribution clarity", [], ["Unclear contribution plans"]⟩

/-- Availability factor (max 10 points), tiered on weekly hours. -/
def availabilityFactor (availability : Int) : Factor :=
  if availability ≥ 20 then
    ⟨10, "High availability", ["Highly available for events"], []⟩
  else if availability ≥ 10 then
    ⟨7, "Good availability", [], []⟩
  else if availability ≥ 5 then
    ⟨4, "Moderate availability", [], []⟩
  else
    ⟨2, "Low availability", [], ["Limited time availability"]⟩

/-- Confidence percentage (the source stores `0.95`/`0.85`/`0.70`/`0.50`;
modelled as hundredths) from the total free-text length. -/
def confidenceOf (total_length : Nat) : Nat :=
  if total_length > 500 then 95
  else if total_length > 300 then 85
  else if total_length > 150 then 70
  else 50

/-- Recommendation label from the final score. -/
def recommendationOf (score : Nat) : String :=
  if score ≥ 80 then "Highly recommended for approval"
  else if score ≥ 60 then "Recommended for approval"
  else if score ≥ 40 then "Consider for approval with interview"
  else "Not recommended"

/-- The structured analysis returned next to the score. -/
structure Analysis where
  factorGameplay : Factor
  factorMotivation : Factor
  factorContribution : Factor
  factorAvailability : Factor
  strengths : List String
  weaknesses : List String
  confidencePct : Nat
  finalScore : Nat
  recommendation : String
deriving DecidableEq, Repr

/-- `analyze_application(data)` from `src/routers/applications.py`.
The source adds the four factor scores into a float, then clamps with
`min(score, 100.0)`; every contribution is integral, so the score is a `Nat`.
`.error ()` models an uncaught exception: `int(...)` on a value that is not
an integer or an integer-shaped string, or `len(...)`/`.lower()` on a
non-string, raise and escape the function. -/
def analyze_application (data : Payload) : Except Unit (Nat × Analysis) :=
  match pyToInt (pyGetD data "gameplay_hours" (.vInt 0)) with
  | .error e => .error e
  | .ok gameplay_hours =>
    let fGame := gameplayFactor gameplay_hours
    match pyStrOf (pyGetD data "reason" (.vStr "")) with
    | .error e => .error e
    | .ok reason =>
      let reason_length := reason.length
      let keyword_matches := countKeywordMatches quality_keywords reason
      let fMot := motivationFactor reason_length keyword_matches
      match pyStrOf (pyGetD data "contribution" (.vStr "")) with
      | .error e => .error e
      | .ok contribution =>
        let contribution_matches := countKeywordMatches contribution_keywords contribution
        let fCon := contributionFactor contribution.length contribution_matches
        match pyToInt (pyGetD data "availability" (.vInt 0)) with
        | .error e => .error e
        | .ok availability =>
          let fAva := availabilityFactor availability
          match pyStrOf (pyGetD data "experience" (.vStr "")) with
          | .error e => .error e
          | .ok experience =>
            let total_length := reason_length + contribution.length + experience.length
            let score := pyMin (fGame.points + fMot.points + fCon.points + fAva.points) 100
            .ok (score,
              { factorGameplay := fGame
                factorMotivation := fMot
                factorContribution := fCon
                factorAvailability := fAva
                strengths := fGame.strengths ++ fMot.strengths ++ fCon.strengths ++ fAva.strengths
                weaknesses := fGame.weaknesses ++ fMot.weaknesses ++ fCon.weaknesses ++ fAva.weaknesses
                confidencePct := confidenceOf total_length
                finalScore := score
                recommendation := recommendationOf score })

/-- `calculate_level(xp)`: `int(math.sqrt(xp / 100))` on a non-negative XP. -/
def calculate_level (xp : Nat) : Nat :=
  Nat.sqrt (xp / 100)

/-! ## Dates — model of the `datetime` pieces the validator uses -/

/-- A calendar date (the only part of a Python `datetime` the validator reads). -/
structure Date where
  year : Nat
  month : Nat
  day : Nat
deriving DecidableEq, Repr

/-- Gregorian leap-year rule. -/
def isLeapYear (y : Nat) : Bool :=
  (y % 4 == 0 && y % 100 != 0) || y % 400 == 0

/-- Days in a month, as `datetime` validates them. -/
def daysInMonth (y m : Nat) : Nat :=
  if m == 2 then (if isLeapYear y then 29 else 28)
  else if m == 4 || m == 6 || m == 9 || m == 11 then 30
  else 31

/-- Modelled from the library: `datetime.fromisoformat`, restricted to the
date-only `YYYY-MM-DD` strings this development feeds it.  A malformed
date maps to `none` (the raised `ValueError`); a string that continues
past the date is outside the model and also maps to `none`. -/
def parseIsoDate (s : String) : Option Date :=
  match s.toList with
  | [y1, y2, y3, y4, '-', m1, m2, '-', d1, d2] =>
    if [y1, y2, y3, y4, m1, m2, d1, d2].all Char.isDigit then
      let y := 1000 * (y1.toNat - 48) + 100 * (y2.toNat - 48) + 10 * (y3.toNat - 48) + (y4.toNat - 48)
      let m := 10 * (m1.toNat - 48) + (m2.toNat - 48)
      let d := 10 * (d1.toNat - 48) + (d2.toNat - 48)
      if 1 ≤ m && m ≤ 12 && 1 ≤ d && d ≤ daysInMonth y m then
        some ⟨y, m, d⟩
      else
        none
    else
      none
  | _ => none

/-- Python lexicographic comparison of `(month, day)` pairs. -/
def pairLt (a b : Nat × Nat) : Bool :=
  a.1 < b.1 || (a.1 == b.1 && a.2 < b.2)

/-- `today.year - dob.year - ((today.month, today.day) < (dob.month, dob.day))`. -/
def computeAge (today dob : Date) : Int :=
  (today.year : Int) - (dob.year : Int) -
    (if pairLt (today.month, today.day) (dob.month, dob.day) then 1 else 0)

/-! ## Payload validation — `validate_application_data` -/

/-- The validation outcome: the `valid` flag and the field-keyed error map,
kept in insertion order as a Python dict does. -/
structure ValidationResult where
  valid : Bool
  errors : List (String × String)
deriving DecidableEq, Repr

/-- `REQUIRED_FIELDS["personal"] + REQUIRED_FIELDS["gaming"] + REQUIRED_FIELDS["motivation"]`. -/
def all_required : List String :=
  ["in_game_name", "date_of_birth", "country",
   "primary_game", "gameplay_hours", "rank", "experience",
   "reason", "contribution", "availability"]

/-- The required-field message built from the field name. -/
def requiredMsg (f : String) : String :=
  pyTitle (String.mk (f.toList.map (fun c => if c == '_' then ' ' else c))) ++ " is required"

/-- `errors[k] = v` on a Python dict: overwrite in place, else append. -/
def setErr (es : List (String × String)) (k v : String) : List (String × String) :=
  if es.any (fun p => p.1 == k) then
    es.map (fun p => if p.1 == k then (k, v) else p)
  else
    es ++ [(k, v)]

/-- The required-field sweep: a field that is absent or falsy is flagged. -/
def requiredErrors (data : Payload) : List (String × String) :=
  all_required.foldl (fun es f =>
    match pyGet data f with
    | none => setErr es f (requiredMsg f)
    | some v => if pyTruthy v then es else setErr es f (requiredMsg f)) []

/-- The `date_of_birth` block.  The `try` around `fromisoformat` catches only
`ValueError`/`TypeError`; `.replace` on a non-string raises `AttributeError`,
which escapes — modelled by `.error ()`. -/
def validateDob (data : Payload) (today : Date) (es0 : List (String × String)) :
    Except Unit (List (String × String)) :=
  match pyGet data "date_of_birth" with
  | none => .ok es0
  | some (.vStr s) =>
    match parseIsoDate (replaceZ s) with
    | none => .ok (setErr es0 "date_of_birth" "Please enter a valid date")
    | some dob =>
      let age := computeAge today dob
      if age < 13 then
        .ok (setErr es0 "date_of_birth" "You must be at least 13 years old")
      else if age > 100 then
        .ok (setErr es0 "date_of_birth" "Please enter a valid date of birth")
      else
        .ok es0
  | some _ => .error ()

/-- The optional `phone` block. -/
def validatePhone (data : Payload) (es0 : List (String × String)) :
    List (String × String) :=
  match pyGet data "phone" with
  | none => es0
  | some v =>
    if pyTruthy v then
      let phone := pyStrip (pyStr v)
      if phone.length < 10 || !(phone.toList.any Char.isDigit) then
        setErr es0 "phone" "Please enter a valid phone number"
      else
        es0
    else
      es0

/-- The `gameplay_hours` block: `int(...)` failure is caught here. -/
def validateGameplayHours (data : Payload) (es0 : List (String × String)) :
    List (String × String) :=
  match pyGet data "gameplay_hours" with
  | none => es0
  | some v =>
    match pyToInt v with
    | .error _ => setErr es0 "gameplay_hours" "Hours must be a valid number"
    | .ok hours =>
      if hours < 0 then setErr es0 "gameplay_hours" "Hours must be a positive number"
      else es0

/-- The `availability` block. -/
def validateAvailability (data : Payload) (es0 : List (String × String)) :
    List (String × String) :=
  match pyGet data "availability" with
  | none => es0
  | some v =>
    match pyToInt v with
    | .error _ => setErr es0 "availability" "Availability must be a valid number"
    | .ok availability =>
      if availability < 0 || availability > 168 then
        setErr es0 "availability" "Hours per week must be between 0 and 168"
      else es0

/-- A minimum-length check on a free-text field; `len(...)` on a non-string
raises an uncaught `TypeError`, modelled by `.error ()`. -/
def validateTextMin (data : Payload) (field : String) (minLen : Nat) (msg : String)
    (es0 : List (String × String)) : Except Unit (List (String × String)) :=
  match pyGet data field with
  | none => .ok es0
  | some v =>
    match pyStrOf v with
    | .error e => .error e
    | .ok s => if s.length < minLen then .ok (setErr es0 field msg) else .ok es0

/-- The `in_game_name` bounds check. -/
def validateIgn (data : Payload) (es0 : List (String × String)) :
    Except Unit (List (String × String)) :=
  match pyGet data "in_game_name" with
  | none => .ok es0
  | some v =>
    match pyStrOf v with
    | .error e => .error e
    | .ok ign =>
      if ign.length < 3 || ign.length > 20 then
        .ok (setErr es0 "in_game_name" "In-game name must be between 3 and 20 characters")
      else
        .ok es0

/-- The `country` check (`.strip()` raises on a non-string). -/
def validateCountry (data : Payload) (es0 : List (String × String)) :
    Except Unit (List (String × String)) :=
  match pyGet data "country" with
  | none => .ok es0
  | some v =>
    match pyStrOf v with
    | .error e => .error e
    | .ok c =>
      if (pyStrip c).length < 2 then
        .ok (setErr es0 "country" "Please enter a valid country")
      else
        .ok es0

/-- `validate_application_data(data)` from `src/routers/applications.py`,
checks in source order; `today` stands for `datetime.now()` read inside.
`.error ()` models an exception escaping the function (which the caller
turns into a 500, with no side effects). -/
def validate_application_data (data : Payload) (today : Date) :
    Except Unit ValidationResult := do
  let es := requiredErrors data
  let es ← validateDob data today es
  let es := validatePhone data es
  let es := validateGameplayHours data es
  let es := validateAvailability data es
  let es ← validateTextMin data "experience" 20
    "Please provide at least 20 characters describing your experience" es
  let es ← validateTextMin data "reason" 30
    "Please provide at least 30 characters explaining why you want to join" es
  let es ← validateTextMin data "contribution" 20
    "Please provide at least 20 characters about your contribution" es
  let es ← validateIgn data es
  let es ← validateCountry data es
  return ⟨es.isEmpty, es⟩

/-! ## Persistent store model -/

/-- A document in the `users` collection (`level`/`xp` read with default 0). -/
structure UserDoc where
  discord_id : String
  xp : Nat
  level : Nat
deriving DecidableEq, Repr

/-- A document in the `applications` collection.  `id` models the unique
`_id`; optional review fields are absent until a decision writes them.
The two endpoint generations write different decision fields, all present
here. -/
structure StoredApp where
  id : Nat
  user_id : String
  form_type : String := "membership"
  data : Payload := []
  status : String
  submitted_at : Nat := 0
  result_score : Nat := 0
  reviewed_at : Option Nat := none
  reviewed_by : Option String := none
  reviewer_name : Option String := none
  review_notes : Option String := none
  rejection_reason : Option String := none
  handled_by : Option String := none
  handler_name : Option String := none
  decision_timestamp : Option Nat := none
  decision_reason : Option String := none
deriving DecidableEq, Repr

/-- A document in an activity collection (metadata elided). -/
structure ActivityEntry where
  user_id : String
  action : String
  timestamp : Nat
deriving DecidableEq, Repr

/-- The shared store: the legacy submit endpoint logs to `activity`,
the decision endpoints log to `activity_logs`, matching the source. -/
structure Db where
  applications : List StoredApp
  activity : List ActivityEntry
  activity_logs : List ActivityEntry
  users : List UserDoc
deriving DecidableEq, Repr

/-- An HTTP error detail: plain text, or the field-keyed validation map
wrapped with its message. -/
inductive ErrDetail where
  | text (msg : String)
  | validationErrors (message : String) (errors : List (String × String))
deriving DecidableEq, Repr

/-- A raised `HTTPException`: status code and detail. -/
structure HErr where
  code : Nat
  detail : ErrDetail
deriving DecidableEq, Repr

/-- `db.applications.find_one({"user_id": uid, "status": "pending"})`,
as a Boolean existence check. -/
def hasPendingFor (apps : List StoredApp) (uid : String) : Bool :=
  apps.any (fun a => a.user_id == uid && a.status == "pending")

/-- `db.applications.find_one({"_id": i})`. -/
def findApp (apps : List StoredApp) (i : Nat) : Option StoredApp :=
  apps.find? (fun a => a.id == i)

/-- `db.users.find_one({"discord_id": uid})`. -/
def findUser (users : List UserDoc) (uid : String) : Option UserDoc :=
  users.find? (fun u => u.discord_id == uid)

/-- `db.users.update_one({"discord_id": uid}, {"$inc": {"xp": amount}})`;
`discord_id` carries a unique index, so updating every match is the
update of the one match. -/
def incXp (users : List UserDoc) (uid : String) (amount : Nat) : List UserDoc :=
  users.map (fun u => if u.discord_id == uid then { u with xp := u.xp + amount } else u)

/-- `db.users.update_one({"discord_id": uid}, {"$set": {"level": lvl}})`. -/
def setLevel (users : List UserDoc) (uid : String) (lvl : Nat) : List UserDoc :=
  users.map (fun u => if u.discord_id == uid then { u with level := lvl } else u)

/-! ## Legacy submission endpoint — `submit_application` in `src/routers/applications.py` -/

/-- The success body of the legacy submit endpoint. -/
structure SubmitResp where
  message : String
  application_id : Nat
  score : Nat
  xp_awarded : Nat
  level_up : Bool
  new_level : Nat
deriving DecidableEq, Repr

/-- `submit_application` from `src/routers/applications.py`: server-side
validation, duplicate-pending check, scoring, insert, activity log, XP award
and level recalculation.  An error return carries the store exactly as it was
when the exception was raised; an exception escaping validation or scoring,
or the applicant missing from `users` after the XP update, surfaces as the
framework 500. -/
def submit_application (db : Db) (application_data : Payload)
    (current_user_id : String) (today : Date) (now : Nat) :
    Except (HErr × Db) (Db × SubmitResp) :=
  match validate_application_data application_data today with
  | .error _ => .error (⟨500, .text "Internal Server Error"⟩, db)
  | .ok validation_result =>
    if !validation_result.valid then
      .error (⟨400, .validationErrors "Validation failed" validation_result.errors⟩, db)
    else if hasPendingFor db.applications current_user_id then
      .error (⟨400, .text "You already have a pending application"⟩, db)
    else
      match analyze_application application_data with
      | .error _ => .error (⟨500, .text "Internal Server Error"⟩, db)
      | .ok (score, _analysis) =>
        let appId := db.applications.length
        let application : StoredApp :=
          { id := appId, user_id := current_user_id, form_type := "membership",
            data := application_data, status := "pending", submitted_at := now,
            result_score := score }
        let db1 : Db := { db with applications := db.applications ++ [application] }
        let db2 : Db :=
          { db1 with activity := db1.activity ++ [⟨current_user_id, "application_submitted", now⟩] }
        let db3 : Db := { db2 with users := incXp db2.users current_user_id 50 }
        match findUser db3.users current_user_id with
        | none => .error (⟨500, .text "Internal Server Error"⟩, db3)
        | some user =>
          let new_level := calculate_level user.xp
          let old_level := user.level
          let db4 : Db :=
            if new_level > old_level then
              { db3 with users := setLevel db3.users current_user_id new_level }
            else
              db3
          .ok (db4, ⟨"Application submitted successfully", appId, score, 50,
            new_level > old_level, new_level⟩)

/-! ## Eligibility evaluator — `check_application_eligibility` in
`src/app/api/application_manager.py` -/

/-- `COOLDOWN_DAYS` from the source. -/
def COOLDOWN_DAYS : Nat := 30

/-- `COOLDOWN_SECONDS = COOLDOWN_DAYS * 24 * 60 * 60`. -/
def COOLDOWN_SECONDS : Nat := COOLDOWN_DAYS * 24 * 60 * 60

/-- The most recent application record, projected to the fields the
eligibility check reads.  `submitted_at` is epoch seconds; a missing
field is `none`. -/
structure LastApp where
  submitted_at : Option Nat
  override_by_ceo : Bool
  override_expires_at : Option Nat
deriving DecidableEq, Repr

/-- Everything `check_application_eligibility` observes once the bot and
guild guards have passed: whether `guild.fetch_member` succeeds, the
member role-id list, whether a `pending` application exists in the store,
the most recent application by `submitted_at`, and the current time in
epoch seconds. -/
structure EligIn where
  memberFound : Bool
  roleIds : List Nat
  pendingAppInDb : Bool
  lastApp : Option LastApp
  now : Nat
deriving DecidableEq, Repr

/-- The five return shapes of the eligibility endpoint.  `eligible b`
carries whether an orphaned pending-marker role was revoked on the way
(the source returns the same eligible body in both cases). -/
inductive EligDecision where
  | notInServer
  | alreadyMember
  | pendingWait
  | cooldown (days_remaining : Int) (can_apply_after : Nat)
  | eligible (orphanedRoleRemoved : Bool)
deriving DecidableEq, Repr

/-- `override and override_expires and utcnow() < override_expires`. -/
def hasValidOverride (la : LastApp) (now : Nat) : Bool :=
  la.override_by_ceo &&
    (match la.override_expires_at with
     | some e => decide (now < e)
     | none => false)

/-- `check_application_eligibility` from `src/app/api/application_manager.py`,
after the bot/guild 503 guards: membership, already-member, pending-flag
(with orphan repair) and cooldown checks in source order.  `days_remaining`
is `int((COOLDOWN_SECONDS - time_since) / 86400)`, truncation toward zero,
written with `Int.tdiv`. -/
def check_application_eligibility (memberRoleId pendingRoleId : Nat)
    (inp : EligIn) : EligDecision :=
  if !inp.memberFound then .notInServer
  else if inp.roleIds.contains memberRoleId then .alreadyMember
  else if inp.roleIds.contains pendingRoleId then
    (if inp.pendingAppInDb then .pendingWait else .eligible true)
  else
    match inp.lastApp with
    | none => .eligible false
    | some la =>
      match la.submitted_at with
      | none => .eligible false
      | some t =>
        let time_since : Int := (inp.now : Int) - (t : Int)
        if time_since < (COOLDOWN_SECONDS : Int) && !(hasValidOverride la inp.now) then
          .cooldown (Int.tdiv ((COOLDOWN_SECONDS : Int) - time_since) 86400)
            (t + COOLDOWN_SECONDS)
        else
          .eligible false

/-! ## Discord environment and effect traces -/

/-- The outcome of every external Discord interaction an accept/reject call
can attempt, as success/failure flags: whether the bot is connected, the
guild resolves, `fetch_member` on the applicant succeeds, each role object
exists, each role mutation succeeds, the DM is delivered, the log channel
resolves and accepts the post, and the audit channel is configured,
resolves and accepts the post. -/
structure DiscordEnv where
  botReady : Bool
  guildFound : Bool
  memberFetchOk : Bool
  memberRoleExists : Bool
  pendingRoleExists : Bool
  addRolesOk : Bool
  removeRolesOk : Bool
  dmOk : Bool
  logChannelFound : Bool
  channelSendOk : Bool
  auditConfigured : Bool
  auditChannelFound : Bool
  auditSendOk : Bool
deriving DecidableEq, Repr

/-- What actually happened on the Discord side of a call: `none` means the
step was never attempted, `some b` that it was attempted with outcome `b`. -/
structure RoleNotifyTrace where
  memberRoleAdded : Option Bool := none
  pendingRoleRemoved : Option Bool := none
  dmDelivered : Option Bool := none
  logPosted : Option Bool := none
  auditPosted : Option Bool := none
deriving DecidableEq, Repr

/-- `log_audit`: skipped when `AUDIT_LOG_CHANNEL_ID` is unset or the channel
does not resolve; a send failure is caught and logged. -/
def auditTrace (env : DiscordEnv) : Option Bool :=
  if !env.auditConfigured || !env.auditChannelFound then none else some env.auditSendOk

/-- The Discord block of the legacy `accept_application`
(`src/routers/applications.py`): one big `try` around member fetch, role
add, role removal, DM and channel post, so the first raised step aborts
the remaining ones; every failure is caught and only printed. -/
def legacyAcceptEffects (env : DiscordEnv) : RoleNotifyTrace :=
  if !(env.botReady && env.guildFound) then {}
  else if !env.memberFetchOk then {}
  else if env.memberRoleExists && !env.addRolesOk then
    { memberRoleAdded := some false }
  else
    let added := if env.memberRoleExists then some true else none
    if env.pendingRoleExists && !env.removeRolesOk then
      { memberRoleAdded := added, pendingRoleRemoved := some false }
    else
      let removed := if env.pendingRoleExists then some true else none
      if !env.logChannelFound then
        { memberRoleAdded := added, pendingRoleRemoved := removed,
          dmDelivered := some env.dmOk }
      else
        { memberRoleAdded := added, pendingRoleRemoved := removed,
          dmDelivered := some env.dmOk, logPosted := some env.channelSendOk }

/-- The Discord side of `accept_application_with_discord`
(`src/app/api/application_manager.py`): role add, role removal, DM, channel
post and audit each sit in their own `try`, so the steps are independent
and every failure is absorbed. -/
def discordAcceptEffects (env : DiscordEnv) : RoleNotifyTrace :=
  { memberRoleAdded := if env.memberRoleExists then some env.addRolesOk else none,
    pendingRoleRemoved := if env.pendingRoleExists then some env.removeRolesOk else none,
    dmDelivered := some env.dmOk,
    logPosted := if env.logChannelFound then some env.channelSendOk else none,
    auditPosted := auditTrace env }

/-- The Discord side of `reject_application_with_discord`: a failed member
fetch leaves `member = None`, which skips the role removal and the DM but
not the channel post or the audit entry. -/
def discordRejectEffects (env : DiscordEnv) : RoleNotifyTrace :=
  { memberRoleAdded := none,
    pendingRoleRemoved :=
      if env.memberFetchOk && env.pendingRoleExists then some env.removeRolesOk else none,
    dmDelivered := if env.memberFetchOk then some env.dmOk else none,
    logPosted := if env.logChannelFound then some env.channelSendOk else none,
    auditPosted := auditTrace env }

/-! ## Decision endpoints -/

/-- The authenticated reviewer identity handed to a decision endpoint. -/
structure Manager where
  discord_id : String
  username : String
deriving DecidableEq, Repr

/-- `update_one` on `applications` by `_id`. -/
def updApp (apps : List StoredApp) (i : Nat) (f : StoredApp → StoredApp) :
    List StoredApp :=
  apps.map (fun a => if a.id == i then f a else a)

/-- The `$set` document of the legacy accept endpoint: status `approved`,
reviewer fields, and `review_notes` only when `notes` is truthy. -/
def legacyAcceptUpdate (manager : Manager) (notes : String) (now : Nat)
    (a : StoredApp) : StoredApp :=
  { a with status := "approved", reviewed_at := some now,
           reviewed_by := some manager.discord_id,
           reviewer_name := some manager.username,
           review_notes := if notes.isEmpty then a.review_notes else some notes }

/-- The `$set` document of `accept_application_with_discord`: status
`accepted` and handler fields. -/
def discordAcceptUpdate (manager : Manager) (notes : String) (now : Nat)
    (a : StoredApp) : StoredApp :=
  { a with status := "accepted", handled_by := some manager.discord_id,
           handler_name := some manager.username,
           decision_timestamp := some now,
           decision_reason := some notes }

/-- The `$set` document of `reject_application_with_discord`. -/
def discordRejectUpdate (manager : Manager) (reason : String) (now : Nat)
    (a : StoredApp) : StoredApp :=
  { a with status := "rejected", handled_by := some manager.discord_id,
           handler_name := some manager.username,
           decision_timestamp := some now,
           decision_reason := some reason }

/-- The success body of the legacy accept endpoint. -/
structure LegacyAcceptResp where
  message : String
  application_id : Nat
  xp_awarded : Nat
deriving DecidableEq, Repr

/-- The success body of the Discord-integrated decision endpoints. -/
structure DecisionResp where
  success : Bool
  message : String
  dm_sent : Bool
deriving DecidableEq, Repr

/-- `accept_application` from `src/routers/applications.py` (legacy
generation).  `idParseOk` models whether `ObjectId(application_id)`
parses; the Discord block is entirely wrapped in `try`/`except` and is
returned as an effect trace; on success the record is set to `approved`,
the applicant receives 100 XP, and an `application_approved` activity-log
entry is appended. -/
def accept_application (env : DiscordEnv) (db : Db) (idParseOk : Bool)
    (application_id : Nat) (notes : String) (manager : Manager) (now : Nat) :
    Except (HErr × Db) (Db × RoleNotifyTrace × LegacyAcceptResp) :=
  if !idParseOk then .error (⟨404, .text "Application not found"⟩, db)
  else
    match findApp db.applications application_id with
    | none => .error (⟨404, .text "Application not found"⟩, db)
    | some application =>
      if application.status != "pending" then
        .error (⟨400, .text ("Cannot accept application with status: " ++ application.status)⟩, db)
      else
        let fx := legacyAcceptEffects env
        let db1 : Db :=
          { db with applications :=
              updApp db.applications application_id (legacyAcceptUpdate manager notes now) }
        let db2 : Db := { db1 with users := incXp db1.users application.user_id 100 }
        let db3 : Db :=
          { db2 with activity_logs :=
              db2.activity_logs ++ [⟨application.user_id, "application_approved", now⟩] }
        .ok (db3, fx, ⟨"Application approved successfully", application_id, 100⟩)

/-- `accept_application_with_discord` from
`src/app/api/application_manager.py`: bot and guild guards, application
lookup and pending guard, then `guild.fetch_member` on the applicant —
whose failure RAISES a 404 before the record is touched; after it, role
changes, the record update to `accepted`, DM, channel post and audit are
all absorbed. -/
def accept_application_with_discord (env : DiscordEnv) (db : Db) (idParseOk : Bool)
    (application_id : Nat) (notes : String) (manager : Manager) (now : Nat) :
    Except (HErr × Db) (Db × RoleNotifyTrace × DecisionResp) :=
  if !env.botReady then .error (⟨503, .text "Discord bot not connected"⟩, db)
  else if !env.guildFound then .error (⟨503, .text "Guild not found"⟩, db)
  else if !idParseOk then .error (⟨400, .text "Invalid application ID"⟩, db)
  else
    match findApp db.applications application_id with
    | none => .error (⟨404, .text "Application not found"⟩, db)
    | some app =>
      if app.status != "pending" then
        .error (⟨400, .text "Application is not pending"⟩, db)
      else if !env.memberFetchOk then
        .error (⟨404, .text "User not found in server"⟩, db)
      else
        let db1 : Db :=
          { db with applications :=
              updApp db.applications application_id (discordAcceptUpdate manager notes now) }
        .ok (db1, discordAcceptEffects env,
          ⟨true, "Application accepted successfully", env.dmOk⟩)

/-- `reject_application_with_discord` from
`src/app/api/application_manager.py`: bot and guild guards, the reason
length guard, application lookup and pending guard; a failed member fetch
is absorbed (`member = None`), the record is set to `rejected`, and the DM
is only attempted when the member was found. -/
def reject_application_with_discord (env : DiscordEnv) (db : Db) (idParseOk : Bool)
    (application_id : Nat) (reason : String) (manager : Manager) (now : Nat) :
    Except (HErr × Db) (Db × RoleNotifyTrace × DecisionResp) :=
  if !env.botReady then .error (⟨503, .text "Discord bot not connected"⟩, db)
  else if !env.guildFound then .error (⟨503, .text "Guild not found"⟩, db)
  else if reason.length < 10 then
    .error (⟨400, .text "Rejection reason must be at least 10 characters"⟩, db)
  else if !idParseOk then .error (⟨400, .text "Invalid application ID"⟩, db)
  else
    match findApp db.applications application_id with
    | none => .error (⟨404, .text "Application not found"⟩, db)
    | some app =>
      if app.status != "pending" then
        .error (⟨400, .text "Application is not pending"⟩, db)
      else
        let db1 : Db :=
          { db with applications :=
              updApp db.applications application_id (discordRejectUpdate manager reason now) }
        .ok (db1, discordRejectEffects env,
          ⟨true, "Application rejected successfully", env.memberFetchOk && env.dmOk⟩)

/-! ## Database indexes — `create_indexes` in `src/database_indexes.py` -/

/-- One `create_index` call: collection, key list with sort direction,
and whether `unique=True` was passed. -/
structure IndexSpec where
  collection : String
  keys : List (String × Int)
  unique : Bool
deriving DecidableEq, Repr

/-- Every index `create_indexes()` creates, in source order.  The only
`unique=True` index in the file is `users.discord_id`; in particular the
compound `applications (user_id, status)` index is NOT unique. -/
def create_indexes : List IndexSpec :=
  [⟨"users", [("discord_id", 1)], true⟩,
   ⟨"users", [("username", 1)], false⟩,
   ⟨"users", [("xp", -1)], false⟩,
   ⟨"users", [("level", -1)], false⟩,
   ⟨"games", [("active", 1)], false⟩,
   ⟨"games", [("created_at", -1)], false⟩,
   ⟨"games", [("name", 1)], false⟩,
   ⟨"applications", [("user_id", 1)], false⟩,
   ⟨"applications", [("status", 1)], false⟩,
   ⟨"applications", [("submitted_at", -1)], false⟩,
   ⟨"applications", [("user_id", 1), ("status", 1)], false⟩,
   ⟨"activity", [("user_id", 1), ("timestamp", -1)], false⟩,
   ⟨"activity", [("timestamp", -1)], false⟩,
   ⟨"events", [("status", 1)], false⟩,
   ⟨"events", [("date", 1)], false⟩,
   ⟨"events", [("participants", 1)], false⟩,
   ⟨"rules", [("category", 1)], false⟩,
   ⟨"rules", [("order", 1)], false⟩]

/-- The string-typed fields of an application document that an index over
`applications` could key on here. -/
def docField (a : StoredApp) : String → Option String
  | "user_id" => some a.user_id
  | "status" => some a.status
  | "form_type" => some a.form_type
  | _ => none

/-- The key sets of the unique indexes declared over `applications`. -/
def applicationsUniqueKeySets (specs : List IndexSpec) : List (List String) :=
  (specs.filter (fun s => s.collection == "applications" && s.unique)).map
    (fun s => s.keys.map Prod.fst)

/-- Would the store accept `insert_one(doc)` into `applications` without a
duplicate-key error, under the declared unique indexes? -/
def insertAllowed (specs : List IndexSpec) (apps : List StoredApp)
    (doc : StoredApp) : Bool :=
  (applicationsUniqueKeySets specs).all (fun ks =>
    apps.all (fun d => !(ks.all (fun k => docField d k == docField doc k))))

/-- `insert_one`, honouring unique indexes: a blocked insert leaves the
collection unchanged. -/
def raceInsertStep (specs : List IndexSpec) (apps : List StoredApp)
    (doc : StoredApp) : List StoredApp :=
  if insertAllowed specs apps doc then apps ++ [doc] else apps

/-- Two concurrent `submit_application` calls by the same applicant,
interleaved as check-1, check-2, insert-1, insert-2: each call runs the
`find_one({"user_id": uid, "status": "pending"})` guard of
`src/routers/applications.py` lines 148-158 against the initial store,
then performs its `insert_one`, which only the declared unique indexes
could stop. -/
def racedSubmitPair (specs : List IndexSpec) (apps0 : List StoredApp)
    (uid : String) : List StoredApp :=
  let c1 := hasPendingFor apps0 uid
  let c2 := hasPendingFor apps0 uid
  let doc1 : StoredApp := { id := apps0.length, user_id := uid, status := "pending" }
  let apps1 := if c1 then apps0 else raceInsertStep specs apps0 doc1
  let doc2 : StoredApp := { id := apps1.length + 1000, user_id := uid, status := "pending" }
  let apps2 := if c2 then apps1 else raceInsertStep specs apps1 doc2
  apps2

/-- The number of `pending` applications an applicant holds. -/
def countPending (apps : List StoredApp) (uid : String) : Nat :=
  apps.countP (fun a => a.user_id == uid && a.status == "pending")

/-! ## Concrete fixtures used by witnesses and counterexamples -/

/-- A 250-character motivation text containing exactly the four quality
keywords `competitive`, `teamwork`, `improve`, `learn`. -/
def reason250 : String :=
  "competitive teamwork improve learn " ++ String.mk (List.replicate 215 'x')

/-- A 150-character contribution text containing exactly the two
contribution keywords `help`, `teach`. -/
def contribution150 : String :=
  "help teach " ++ String.mk (List.replicate 139 'x')

/-- The worked-example payload of the specification: 1200 hours, the
250-character reason, the 150-character contribution, availability 25. -/
def scenarioPayload : Payload :=
  [("gameplay_hours", .vInt 1200), ("reason", .vStr reason250),
   ("contribution", .vStr contribution150), ("availability", .vInt 25)]

/-- An environment in which every Discord interaction succeeds. -/
def envAllOk : DiscordEnv :=
  ⟨true, true, true, true, true, true, true, true, true, true, true, true, true⟩

/-- The all-success environment except the applicant has left the guild. -/
def envNoMember : DiscordEnv := { envAllOk with memberFetchOk := false }

/-- An environment in which the role mutations, the DM, the channel post and
the audit post all fail. -/
def envSideFailures : DiscordEnv :=
  { envAllOk with addRolesOk := false, removeRolesOk := false, dmOk := false,
                  channelSendOk := false, auditSendOk := false }

/-- A reviewer identity. -/
def mgrA : Manager := ⟨"900", "alice"⟩

/-- A pending application record. -/
def pendingSeed : StoredApp := { id := 1, user_id := "42", status := "pending" }

/-- An already-approved application record. -/
def approvedSeed : StoredApp := { id := 2, user_id := "43", status := "approved" }

/-- A store holding one pending application. -/
def dbPending : Db := ⟨[pendingSeed], [], [], []⟩

/-- A store holding one already-approved application. -/
def dbApproved : Db := ⟨[approvedSeed], [], [], []⟩

/-- An empty store. -/
def dbEmpty : Db := ⟨[], [], [], []⟩

/-! ## Eligibility lemmas -/

/-- Once the membership, member-role and pending-role checks fall through,
a last application inside the cooldown window with no valid override
lands in the `COOLDOWN` branch with the truncated day count. -/
theorem elig_reaches_cooldown (mr pr : Nat) (roles : List Nat) (pendingDb : Bool)
    (la : LastApp) (t now : Nat)
    (hm : roles.contains mr = false) (hp : roles.contains pr = false)
    (hsub : la.submitted_at = some t)
    (hov : hasValidOverride la now = false)
    (hlt : (now : Int) - (t : Int) < (COOLDOWN_SECONDS : Int)) :
    check_application_eligibility mr pr ⟨true, roles, pendingDb, some la, now⟩
      = .cooldown (Int.tdiv ((COOLDOWN_SECONDS : Int) - ((now : Int) - (t : Int))) 86400)
          (t + COOLDOWN_SECONDS) := by
  have hm' : mr ∉ roles := by simpa using hm
  have hp' : pr ∉ roles := by simpa using hp
  unfold check_application_eligibility
  simp [hm', hp', hsub, hov, hlt]

/-- A valid override suppresses the cooldown branch. -/
theorem elig_override_suppresses_cooldown (mr pr : Nat) (roles : List Nat)
    (pendingDb : Bool) (la : LastApp) (t now : Nat)
    (hm : roles.contains mr = false) (hp : roles.contains pr = false)
    (hsub : la.submitted_at = some t)
    (hov : hasValidOverride la now = true) :
    check_application_eligibility mr pr ⟨true, roles, pendingDb, some la, now⟩
      = .eligible false := by
  have hm' : mr ∉ roles := by simpa using hm
  have hp' : pr ∉ roles := by simpa using hp
  unfold check_application_eligibility
  simp [hm', hp', hsub, hov]

/-- C5: for an applicant in the community, not yet a member, with no pending
flag, whose most recent application was submitted exactly ten days
(864000 seconds) before now: with no currently-valid override the check
returns `COOLDOWN` with `days_remaining = 20`, and with an override granted
and expiring strictly in the future it returns eligible. -/
theorem C5_cooldown_10_days (mr pr : Nat) (roles : List Nat) (pendingDb : Bool)
    (t e : Nat) (la : LastApp)
    (hm : roles.contains mr = false) (hp : roles.contains pr = false)
    (hsub : la.submitted_at = some t) :
    (hasValidOverride la (t + 864000) = false →
      check_application_eligibility mr pr ⟨true, roles, pendingDb, some la, t + 864000⟩
        = .cooldown 20 (t + 2592000))
    ∧ (la.override_by_ceo = true → la.override_expires_at = some e → t + 864000 < e →
      check_application_eligibility mr pr ⟨true, roles, pendingDb, some la, t + 864000⟩
        = .eligible false) := by
  constructor
  · intro hov
    have hdiff : ((t + 864000 : Nat) : Int) - (t : Int) = 864000 := by push_cast; ring
    have hcs : (COOLDOWN_SECONDS : Int) = 2592000 := by norm_num [COOLDOWN_SECONDS, COOLDOWN_DAYS]
    have h := elig_reaches_cooldown mr pr roles pendingDb la t (t + 864000) hm hp hsub hov
      (by rw [hdiff, hcs]; norm_num)
    rw [hdiff, hcs] at h
    have hnum : Int.tdiv ((2592000 : Int) - 864000) 86400 = 20 := by decide
    rw [hnum] at h
    have hsec : t + COOLDOWN_SECONDS = t + 2592000 := by norm_num [COOLDOWN_SECONDS, COOLDOWN_DAYS]
    rw [hsec] at h
    exact h
  · intro hov hexp he
    apply elig_override_suppresses_cooldown mr pr roles pendingDb la t (t + 864000) hm hp hsub
    simp [hasValidOverride, hov, hexp, he]

/-- C5 witness: `mr = 10`, `pr = 11`, no roles, last submission at epoch 0,
now ten days later; once with no override (cooldown, 20 days left), once
with an override expiring at 900000 (eligible). -/
theorem C5_witness :
    check_application_eligibility 10 11 ⟨true, [], false, some ⟨some 0, false, none⟩, 864000⟩
      = .cooldown 20 2592000
    ∧ check_application_eligibility 10 11 ⟨true, [], false, some ⟨some 0, true, some 900000⟩, 864000⟩
      = .eligible false :=
  ⟨(C5_cooldown_10_days 10 11 [] false 0 900000 ⟨some 0, false, none⟩
      (by decide) (by decide) rfl).1 (by decide),
   (C5_cooldown_10_days 10 11 [] false 0 900000 ⟨some 0, true, some 900000⟩
      (by decide) (by decide) rfl).2 rfl rfl (by decide)⟩

/-- C10: in the `COOLDOWN` response, `days_remaining` is the integer
truncation of the remaining seconds divided by 86400; in particular any
applicant past day 29 but still inside the 30-day window gets
`days_remaining = 0` together with `eligible = false`. -/
theorem C10_days_remaining_truncation (mr pr : Nat) (roles : List Nat)
    (pendingDb : Bool) (la : LastApp) (t now : Nat)
    (hm : roles.contains mr = false) (hp : roles.contains pr = false)
    (hsub : la.submitted_at = some t)
    (hov : hasValidOverride la now = false)
    (hlo : t ≤ now) (hhi : now - t < 2592000) :
    check_application_eligibility mr pr ⟨true, roles, pendingDb, some la, now⟩
      = .cooldown (((2592000 - (now - t)) / 86400 : Nat) : Int) (t + 2592000)
    ∧ (2505600 < now - t →
      check_application_eligibility mr pr ⟨true, roles, pendingDb, some la, now⟩
        = .cooldown 0 (t + 2592000)) := by
  have hcs : (COOLDOWN_SECONDS : Int) = 2592000 := by norm_num [COOLDOWN_SECONDS, COOLDOWN_DAYS]
  have hdiff : (now : Int) - (t : Int) = ((now - t : Nat) : Int) := by
    omega
  have h := elig_reaches_cooldown mr pr roles pendingDb la t now hm hp hsub hov
    (by rw [hdiff, hcs]; exact_mod_cast hhi)
  rw [hdiff, hcs] at h
  have hsec : t + COOLDOWN_SECONDS = t + 2592000 := by norm_num [COOLDOWN_SECONDS, COOLDOWN_DAYS]
  rw [hsec] at h
  have hcast : ((2592000 : Int) - ((now - t : Nat) : Int))
      = (((2592000 - (now - t) : Nat)) : Int) := by omega
  rw [hcast] at h
  have htdiv : ∀ m n : Nat, Int.tdiv ((m : Nat) : Int) ((n : Nat) : Int) = ((m / n : Nat) : Int) :=
    fun m n => rfl
  have h86 : (86400 : Int) = ((86400 : Nat) : Int) := rfl
  constructor
  · rw [h, h86, htdiv]
  · intro h29
    have hz : (2592000 - (now - t)) / 86400 = 0 := by omega
    rw [h, h86, htdiv, hz]
    norm_num

/-- C10 witness: last submission at epoch 0, now 2505601 seconds later
(inside the window, past day 29): `days_remaining = 0`. -/
theorem C10_witness :
    check_application_eligibility 10 11 ⟨true, [], false, some ⟨some 0, false, none⟩, 2505601⟩
      = .cooldown 0 2592000 :=
  (C10_days_remaining_truncation 10 11 [] false ⟨some 0, false, none⟩ 0 2505601
    (by decide) (by decide) rfl (by decide) (by decide) (by decide)).2 (by decide)

/-! ## Decision-endpoint lemmas -/

/-- Updating the found record in place: `find?` then `update_one` by the
same `_id` finds the updated record, for any update that keeps the id. -/
theorem findApp_updApp (apps : List StoredApp) (i : Nat) (f : StoredApp → StoredApp)
    (a : StoredApp) (hf : findApp apps i = some a) (hid : (f a).id = a.id) :
    findApp (updApp apps i f) i = some (f a) := by
  induction apps with
  | nil => simp [findApp] at hf
  | cons hd tl ih =>
    by_cases h : hd.id = i
    · have hcond : (hd.id == i) = true := by simp [h]
      have hfind : findApp (hd :: tl) i = some hd := by
        unfold findApp
        rw [List.find?_cons_of_pos (p := fun x : StoredApp => x.id == i) _ hcond]
      rw [hfind] at hf
      injection hf with hf
      subst hf
      unfold updApp findApp
      simp only [List.map_cons, hcond, if_true]
      rw [List.find?_cons_of_pos (p := fun x : StoredApp => x.id == i) _ (by simp [hid, h])]
    · have hcond : (hd.id == i) = false := by simp [h]
      have hfind : findApp (hd :: tl) i = findApp tl i := by
        unfold findApp
        rw [List.find?_cons_of_neg (p := fun x : StoredApp => x.id == i) _ (by simp [h])]
      rw [hfind] at hf
      unfold updApp findApp
      simp only [List.map_cons, hcond, Bool.false_eq_true, if_false]
      rw [List.find?_cons_of_neg (p := fun x : StoredApp => x.id == i) _ (by simp [h])]
      exact ih hf

/-- `accept_application_with_discord` on a pending record, bot connected,
guild resolved, applicant still fetchable: the call succeeds and the record
is set to `accepted` — whatever the fate of role mutations, DM, channel
post or audit post. -/
theorem accept_discord_ok (env : DiscordEnv) (db : Db) (i : Nat) (app : StoredApp)
    (notes : String) (mgr : Manager) (now : Nat)
    (hfind : findApp db.applications i = some app) (hst : app.status = "pending")
    (hbot : env.botReady = true) (hguild : env.guildFound = true)
    (hmem : env.memberFetchOk = true) :
    accept_application_with_discord env db true i notes mgr now
      = .ok ({ db with applications := updApp db.applications i (discordAcceptUpdate mgr notes now) },
             discordAcceptEffects env,
             ⟨true, "Application accepted successfully", env.dmOk⟩) := by
  unfold accept_application_with_discord
  simp [hbot, hguild, hfind, hst, hmem]

/-- `reject_application_with_discord` on a pending record with an acceptable
reason: the call succeeds and the record is set to `rejected` — even when
the applicant has left the guild, and whatever the fate of the remaining
Discord interactions. -/
theorem reject_discord_ok (env : DiscordEnv) (db : Db) (i : Nat) (app : StoredApp)
    (reason : String) (mgr : Manager) (now : Nat)
    (hfind : findApp db.applications i = some app) (hst : app.status = "pending")
    (hbot : env.botReady = true) (hguild : env.guildFound = true)
    (hrl : 10 ≤ reason.length) :
    reject_application_with_discord env db true i reason mgr now
      = .ok ({ db with applications := updApp db.applications i (discordRejectUpdate mgr reason now) },
             discordRejectEffects env,
             ⟨true, "Application rejected successfully", env.memberFetchOk && env.dmOk⟩) := by
  have hr : ¬ (reason.length < 10) := by omega
  unfold reject_application_with_discord
  simp [hbot, hguild, hfind, hst, hr]

/-- The legacy `accept_application` on a pending record: the record is set
to `approved`, the applicant receives 100 XP and an activity-log entry is
appended, with the Discord block reported only as an effect trace. -/
theorem accept_legacy_ok (env : DiscordEnv) (db : Db) (i : Nat) (app : StoredApp)
    (notes : String) (mgr : Manager) (now : Nat)
    (hfind : findApp db.applications i = some app) (hst : app.status = "pending") :
    accept_application env db true i notes mgr now
      = .ok ({ db with
                applications := updApp db.applications i (legacyAcceptUpdate mgr notes now),
                users := incXp db.users app.user_id 100,
                activity_logs := db.activity_logs ++ [⟨app.user_id, "application_approved", now⟩] },
             legacyAcceptEffects env,
             ⟨"Application approved successfully", i, 100⟩) := by
  unfold accept_application
  simp [hfind, hst]

/-- The legacy `accept_application` on a non-pending record: a 400 whose
message names the current status, with the store untouched. -/
theorem accept_legacy_conflict (env : DiscordEnv) (db : Db) (i : Nat) (app : StoredApp)
    (notes : String) (mgr : Manager) (now : Nat)
    (hfind : findApp db.applications i = some app) (hst : app.status ≠ "pending") :
    accept_application env db true i notes mgr now
      = .error (⟨400, .text ("Cannot accept application with status: " ++ app.status)⟩, db) := by
  unfold accept_application
  simp [hfind, hst]

/-- `accept_application_with_discord` on a non-pending record: a 400 with
the fixed message `Application is not pending`, with the store untouched. -/
theorem accept_discord_conflict (env : DiscordEnv) (db : Db) (i : Nat) (app : StoredApp)
    (notes : String) (mgr : Manager) (now : Nat)
    (hfind : findApp db.applications i = some app) (hst : app.status ≠ "pending")
    (hbot : env.botReady = true) (hguild : env.guildFound = true) :
    accept_application_with_discord env db true i notes mgr now
      = .error (⟨400, .text "Application is not pending"⟩, db) := by
  unfold accept_application_with_discord
  simp [hbot, hguild, hfind, hst]

/-! ## Claims C2, C3, C4 -/

/-- C2 counterexample: on a pending application whose applicant has left
the community, the authoritative accept endpoint raises a caller-visible
404 and the record does NOT transition out of `pending` — the failure is
neither absorbed nor logged-and-continued, refuting the claim for accept. -/
theorem C2_counterexample :
    accept_application_with_discord envNoMember dbPending true 1 "Welcome to Maestros!" mgrA 100
      = .error (⟨404, .text "User not found in server"⟩, dbPending)
    ∧ (findApp dbPending.applications 1).map StoredApp.status = some "pending" := by
  decide

/-- C2 amended: on a pending application with the bot connected and the
guild resolved, failures of role mutations, DM delivery, channel posts and
audit posts are absorbed into the effect trace and never block the status
transition, for both accept and reject; reject also absorbs the applicant
having left the community, but accept surfaces a missing applicant as a
404 with no transition. -/
theorem C2_amended (env : DiscordEnv) (db : Db) (i : Nat) (app : StoredApp)
    (notes reason : String) (mgr : Manager) (now : Nat)
    (hfind : findApp db.applications i = some app) (hst : app.status = "pending")
    (hbot : env.botReady = true) (hguild : env.guildFound = true) :
    (env.memberFetchOk = true →
      accept_application_with_discord env db true i notes mgr now
        = .ok ({ db with applications := updApp db.applications i (discordAcceptUpdate mgr notes now) },
               discordAcceptEffects env,
               ⟨true, "Application accepted successfully", env.dmOk⟩)
      ∧ findApp (updApp db.applications i (discordAcceptUpdate mgr notes now)) i
          = some (discordAcceptUpdate mgr notes now app))
    ∧ (10 ≤ reason.length →
      reject_application_with_discord env db true i reason mgr now
        = .ok ({ db with applications := updApp db.applications i (discordRejectUpdate mgr reason now) },
               discordRejectEffects env,
               ⟨true, "Application rejected successfully", env.memberFetchOk && env.dmOk⟩)
      ∧ findApp (updApp db.applications i (discordRejectUpdate mgr reason now)) i
          = some (discordRejectUpdate mgr reason now app))
    ∧ (env.memberFetchOk = false →
      accept_application_with_discord env db true i notes mgr now
        = .error (⟨404, .text "User not found in server"⟩, db)) := by
  refine ⟨fun hmem => ⟨accept_discord_ok env db i app notes mgr now hfind hst hbot hguild hmem,
      findApp_updApp db.applications i _ app hfind rfl⟩,
    fun hrl => ⟨reject_discord_ok env db i app reason mgr now hfind hst hbot hguild hrl,
      findApp_updApp db.applications i _ app hfind rfl⟩,
    fun hmem => ?_⟩
  unfold accept_application_with_discord
  simp [hbot, hguild, hfind, hst, hmem]

/-- C2 witness: one pending record; accept under failing role/DM/post
interactions still transitions to `accepted`, reject does the same to
`rejected`, and accept with the applicant gone raises the 404. -/
theorem C2_amended_witness :
    (accept_application_with_discord envSideFailures dbPending true 1 "n" mgrA 5
        = .ok ({ dbPending with
                  applications := updApp dbPending.applications 1 (discordAcceptUpdate mgrA "n" 5) },
               discordAcceptEffects envSideFailures,
               ⟨true, "Application accepted successfully", envSideFailures.dmOk⟩)
      ∧ findApp (updApp dbPending.applications 1 (discordAcceptUpdate mgrA "n" 5)) 1
          = some (discordAcceptUpdate mgrA "n" 5 pendingSeed))
    ∧ (reject_application_with_discord envNoMember dbPending true 1 "not a fit for us" mgrA 5
        = .ok ({ dbPending with
                  applications := updApp dbPending.applications 1 (discordRejectUpdate mgrA "not a fit for us" 5) },
               discordRejectEffects envNoMember,
               ⟨true, "Application rejected successfully", envNoMember.memberFetchOk && envNoMember.dmOk⟩)
      ∧ findApp (updApp dbPending.applications 1 (discordRejectUpdate mgrA "not a fit for us" 5)) 1
          = some (discordRejectUpdate mgrA "not a fit for us" 5 pendingSeed))
    ∧ accept_application_with_discord envNoMember dbPending true 1 "n" mgrA 5
        = .error (⟨404, .text "User not found in server"⟩, dbPending) :=
  ⟨(C2_amended envSideFailures dbPending 1 pendingSeed "n" "not a fit for us" mgrA 5
      (by decide) rfl rfl rfl).1 rfl,
   (C2_amended envNoMember dbPending 1 pendingSeed "n" "not a fit for us" mgrA 5
      (by decide) rfl rfl rfl).2.1 (by decide),
   (C2_amended envNoMember dbPending 1 pendingSeed "n" "not a fit for us" mgrA 5
      (by decide) rfl rfl rfl).2.2 rfl⟩

/-- C3 counterexample: accepting a pending application through the
authoritative Discord-integrated endpoint writes status `accepted`, not
`approved` as the claim states. -/
theorem C3_counterexample :
    (accept_application_with_discord envAllOk dbPending true 1 "Welcome to Maestros!" mgrA 100).map
        (fun r => (findApp r.1.applications 1).map StoredApp.status)
      = .ok (some "accepted")
    ∧ ("accepted" : String) ≠ "approved" := by
  decide

/-- C3 amended: accepting a pending application records the reviewer
identity and the review timestamp in both endpoint generations, but the
status written is `approved` (with `reviewed_by`/`reviewed_at`) in the
legacy endpoint and `accepted` (with `handled_by`/`decision_timestamp`)
in the Discord-integrated one. -/
theorem C3_amended (env : DiscordEnv) (db : Db) (i : Nat) (app : StoredApp)
    (notes : String) (mgr : Manager) (now : Nat)
    (hfind : findApp db.applications i = some app) (hst : app.status = "pending")
    (hbot : env.botReady = true) (hguild : env.guildFound = true)
    (hmem : env.memberFetchOk = true) :
    ((legacyAcceptUpdate mgr notes now app).status = "approved"
      ∧ (legacyAcceptUpdate mgr notes now app).reviewed_by = some mgr.discord_id
      ∧ (legacyAcceptUpdate mgr notes now app).reviewed_at = some now
      ∧ ∃ fx resp, accept_application env db true i notes mgr now
          = .ok ({ db with
                    applications := updApp db.applications i (legacyAcceptUpdate mgr notes now),
                    users := incXp db.users app.user_id 100,
                    activity_logs := db.activity_logs ++ [⟨app.user_id, "application_approved", now⟩] },
                 fx, resp)
      ∧ findApp (updApp db.applications i (legacyAcceptUpdate mgr notes now)) i
          = some (legacyAcceptUpdate mgr notes now app))
    ∧ ((discordAcceptUpdate mgr notes now app).status = "accepted"
      ∧ (discordAcceptUpdate mgr notes now app).handled_by = some mgr.discord_id
      ∧ (discordAcceptUpdate mgr notes now app).decision_timestamp = some now
      ∧ ∃ fx resp, accept_application_with_discord env db true i notes mgr now
          = .ok ({ db with
                    applications := updApp db.applications i (discordAcceptUpdate mgr notes now) },
                 fx, resp)
      ∧ findApp (updApp db.applications i (discordAcceptUpdate mgr notes now)) i
          = some (discordAcceptUpdate mgr notes now app)) := by
  refine ⟨⟨rfl, rfl, rfl, ⟨legacyAcceptEffects env, ⟨"Application approved successfully", i, 100⟩,
      accept_legacy_ok env db i app notes mgr now hfind hst,
      findApp_updApp db.applications i _ app hfind rfl⟩⟩,
    ⟨rfl, rfl, rfl, ⟨discordAcceptEffects env,
      ⟨true, "Application accepted successfully", env.dmOk⟩,
      accept_discord_ok env db i app notes mgr now hfind hst hbot hguild hmem,
      findApp_updApp db.applications i _ app hfind rfl⟩⟩⟩

/-- C3 witness: the two accept endpoints applied to the one pending record. -/
theorem C3_amended_witness :
    ((legacyAcceptUpdate mgrA "Welcome!" 7 pendingSeed).status = "approved"
      ∧ (legacyAcceptUpdate mgrA "Welcome!" 7 pendingSeed).reviewed_by = some mgrA.discord_id
      ∧ (legacyAcceptUpdate mgrA "Welcome!" 7 pendingSeed).reviewed_at = some 7
      ∧ ∃ fx resp, accept_application envAllOk dbPending true 1 "Welcome!" mgrA 7
          = .ok ({ dbPending with
                    applications := updApp dbPending.applications 1 (legacyAcceptUpdate mgrA "Welcome!" 7),
                    users := incXp dbPending.users pendingSeed.user_id 100,
                    activity_logs := dbPending.activity_logs
                      ++ [⟨pendingSeed.user_id, "application_approved", 7⟩] },
                 fx, resp)
      ∧ findApp (updApp dbPending.applications 1 (legacyAcceptUpdate mgrA "Welcome!" 7)) 1
          = some (legacyAcceptUpdate mgrA "Welcome!" 7 pendingSeed))
    ∧ ((discordAcceptUpdate mgrA "Welcome!" 7 pendingSeed).status = "accepted"
      ∧ (discordAcceptUpdate mgrA "Welcome!" 7 pendingSeed).handled_by = some mgrA.discord_id
      ∧ (discordAcceptUpdate mgrA "Welcome!" 7 pendingSeed).decision_timestamp = some 7
      ∧ ∃ fx resp, accept_application_with_discord envAllOk dbPending true 1 "Welcome!" mgrA 7
          = .ok ({ dbPending with
                    applications := updApp dbPending.applications 1 (discordAcceptUpdate mgrA "Welcome!" 7) },
                 fx, resp)
      ∧ findApp (updApp dbPending.applications 1 (discordAcceptUpdate mgrA "Welcome!" 7)) 1
          = some (discordAcceptUpdate mgrA "Welcome!" 7 pendingSeed)) :=
  C3_amended envAllOk dbPending 1 pendingSeed "Welcome!" mgrA 7 (by decide) rfl rfl rfl rfl

/-- C4 counterexample: accepting an already-approved application through
the authoritative Discord-integrated endpoint does return a 400 conflict
and leaves the store untouched, but its fixed message `Application is not
pending` does not name the current status — refuting the naming part of
the claim. -/
theorem C4_counterexample :
    accept_application_with_discord envAllOk dbApproved true 2 "Welcome to Maestros!" mgrA 100
      = .error (⟨400, .text "Application is not pending"⟩, dbApproved)
    ∧ pyIn "approved" "Application is not pending" = false := by
  decide

/-- C4 amended: accepting a non-pending application returns a 400 conflict
and leaves the store completely unchanged in both endpoint generations;
the legacy message names the current status, the Discord-integrated
message is the fixed `Application is not pending`. -/
theorem C4_amended (env : DiscordEnv) (db : Db) (i : Nat) (app : StoredApp)
    (notes : String) (mgr : Manager) (now : Nat)
    (hfind : findApp db.applications i = some app) (hst : app.status ≠ "pending")
    (hbot : env.botReady = true) (hguild : env.guildFound = true) :
    accept_application env db true i notes mgr now
      = .error (⟨400, .text ("Cannot accept application with status: " ++ app.status)⟩, db)
    ∧ accept_application_with_discord env db true i notes mgr now
      = .error (⟨400, .text "Application is not pending"⟩, db) :=
  ⟨accept_legacy_conflict env db i app notes mgr now hfind hst,
   accept_discord_conflict env db i app notes mgr now hfind hst hbot hguild⟩

/-- C4 witness: both endpoints rejecting an accept of the already-approved
record, store unchanged. -/
theorem C4_amended_witness :
    accept_application envAllOk dbApproved true 2 "w" mgrA 9
      = .error (⟨400, .text ("Cannot accept application with status: " ++ approvedSeed.status)⟩, dbApproved)
    ∧ accept_application_with_discord envAllOk dbApproved true 2 "w" mgrA 9
      = .error (⟨400, .text "Application is not pending"⟩, dbApproved) :=
  C4_amended envAllOk dbApproved 2 approvedSeed "w" mgrA 9 (by decide) (by decide) rfl rfl

/-! ## Scoring-engine lemmas and claims C7, C8, C9 -/

/-- The experience factor always lands in [10, 40]. -/
theorem gameplayFactor_bounds (g : Int) :
    10 ≤ (gameplayFactor g).points ∧ (gameplayFactor g).points ≤ 40 := by
  unfold gameplayFactor
  split_ifs <;> simp

/-- The motivation factor always lands in [5, 30]. -/
theorem motivationFactor_bounds (l m : Nat) :
    5 ≤ (motivationFactor l m).points ∧ (motivationFactor l m).points ≤ 30 := by
  unfold motivationFactor
  split_ifs <;> simp

/-- The contribution factor always lands in [5, 20]. -/
theorem contributionFactor_bounds (l m : Nat) :
    5 ≤ (contributionFactor l m).points ∧ (contributionFactor l m).points ≤ 20 := by
  unfold contributionFactor
  split_ifs <;> simp

/-- The availability factor always lands in [2, 10]. -/
theorem availabilityFactor_bounds (a : Int) :
    2 ≤ (availabilityFactor a).points ∧ (availabilityFactor a).points ≤ 10 := by
  unfold availabilityFactor
  split_ifs <;> simp

/-- C7: the tier table and the worked example.  1500 hours score exactly 40
experience points and 50 hours exactly 10; the scenario payload — 1200
hours, the 250-character reason with its 4 quality keywords, the
150-character contribution with its 2 contribution keywords, availability
25 — scores exactly 100 with the top recommendation tier. -/
theorem C7_scoring_tiers_and_scenario :
    (analyze_application [("gameplay_hours", PyVal.vInt 1500)]).map
        (fun r => r.2.factorGameplay.points) = .ok 40
    ∧ (analyze_application [("gameplay_hours", PyVal.vInt 50)]).map
        (fun r => r.2.factorGameplay.points) = .ok 10
    ∧ reason250.length = 250
    ∧ countKeywordMatches quality_keywords reason250 = 4
    ∧ contribution150.length = 150
    ∧ countKeywordMatches contribution_keywords contribution150 = 2
    ∧ (analyze_application scenarioPayload).map (fun r => (r.1, r.2.recommendation))
        = .ok (100, "Highly recommended for approval") := by
  decide

/-- C8 counterexample: a payload whose `gameplay_hours` holds a non-numeric
string makes `int(...)` raise, so the engine throws instead of returning a
definite score — refuting totality over all payloads. -/
theorem C8_counterexample :
    analyze_application [("gameplay_hours", PyVal.vStr "plenty")] = .error () := by
  decide

/-- C8 amended: missing numeric fields default to 0 and missing text fields
to the empty string, and the engine returns a definite score on every
payload whose present numeric fields convert with `int(...)` and whose
present text fields are strings; a payload outside that shape raises
instead. -/
theorem C8_engine_total_on_convertible (data : Payload) (g a : Int) (rs cs es : String)
    (hg : pyToInt (pyGetD data "gameplay_hours" (.vInt 0)) = .ok g)
    (ha : pyToInt (pyGetD data "availability" (.vInt 0)) = .ok a)
    (hr : pyStrOf (pyGetD data "reason" (.vStr "")) = .ok rs)
    (hc : pyStrOf (pyGetD data "contribution" (.vStr "")) = .ok cs)
    (he : pyStrOf (pyGetD data "experience" (.vStr "")) = .ok es) :
    (∃ r, analyze_application data = .ok r)
    ∧ (pyGet data "gameplay_hours" = none → g = 0)
    ∧ (pyGet data "availability" = none → a = 0)
    ∧ (pyGet data "reason" = none → rs = "")
    ∧ (pyGet data "contribution" = none → cs = "")
    ∧ (pyGet data "experience" = none → es = "") := by
  refine ⟨?_, ?_, ?_, ?_, ?_, ?_⟩
  · unfold analyze_application
    rw [hg, hr, hc, ha, he]
    exact ⟨_, rfl⟩
  · intro h0
    simp only [pyGetD, h0, Option.getD, pyToInt, Except.ok.injEq] at hg
    omega
  · intro h0
    simp only [pyGetD, h0, Option.getD, pyToInt, Except.ok.injEq] at ha
    omega
  · intro h0
    simp only [pyGetD, h0, Option.getD, pyStrOf, Except.ok.injEq] at hr
    exact hr.symm
  · intro h0
    simp only [pyGetD, h0, Option.getD, pyStrOf, Except.ok.injEq] at hc
    exact hc.symm
  · intro h0
    simp only [pyGetD, h0, Option.getD, pyStrOf, Except.ok.injEq] at he
    exact he.symm

/-- C8 witness: the empty payload — every field missing — scores without
throwing, with all defaults observed. -/
theorem C8_engine_total_witness :
    (∃ r, analyze_application [] = .ok r)
    ∧ (pyGet [] "gameplay_hours" = none → (0 : Int) = 0)
    ∧ (pyGet [] "availability" = none → (0 : Int) = 0)
    ∧ (pyGet [] "reason" = none → ("" : String) = "")
    ∧ (pyGet [] "contribution" = none → ("" : String) = "")
    ∧ (pyGet [] "experience" = none → ("" : String) = "") :=
  C8_engine_total_on_convertible [] 0 0 "" "" "" rfl rfl rfl rfl rfl

/-- C9: whenever the engine returns, the score lies in [22, 100]: the four
factors have strictly positive minima 10 + 5 + 5 + 2 = 22, so 0 is
unreachable and the effective range is tighter than the documented
[0, 100]. -/
theorem C9_score_range (data : Payload) (score : Nat) (analysis : Analysis)
    (h : analyze_application data = .ok (score, analysis)) :
    22 ≤ score ∧ score ≤ 100 := by
  unfold analyze_application at h
  cases h1 : pyToInt (pyGetD data "gameplay_hours" (.vInt 0)) with
  | error e => rw [h1] at h; cases h
  | ok g =>
    rw [h1] at h
    cases h2 : pyStrOf (pyGetD data "reason" (.vStr "")) with
    | error e => rw [h2] at h; cases h
    | ok reason =>
      rw [h2] at h
      cases h3 : pyStrOf (pyGetD data "contribution" (.vStr "")) with
      | error e => rw [h3] at h; cases h
      | ok contribution =>
        rw [h3] at h
        cases h4 : pyToInt (pyGetD data "availability" (.vInt 0)) with
        | error e => rw [h4] at h; cases h
        | ok avail =>
          rw [h4] at h
          cases h5 : pyStrOf (pyGetD data "experience" (.vStr "")) with
          | error e => rw [h5] at h; cases h
          | ok exper =>
            rw [h5] at h
            simp only [Except.ok.injEq, Prod.mk.injEq] at h
            obtain ⟨hs, -⟩ := h
            subst hs
            have hg := gameplayFactor_bounds g
            have hm := motivationFactor_bounds reason.length
              (countKeywordMatches quality_keywords reason)
            have hc := contributionFactor_bounds contribution.length
              (countKeywordMatches contribution_keywords contribution)
            have ha := availabilityFactor_bounds avail
            unfold pyMin
            split_ifs <;> omega

/-- The analysis the engine produces for the empty payload. -/
def emptyAnalysis : Analysis :=
  { factorGameplay := ⟨10, "Limited gaming experience", [], ["Limited gaming hours"]⟩,
    factorMotivation := ⟨5, "Weak motivation", [], ["Lacks detailed motivation"]⟩,
    factorContribution := ⟨5, "Limited contribution clarity", [], ["Unclear contribution plans"]⟩,
    factorAvailability := ⟨2, "Low availability", [], ["Limited time availability"]⟩,
    strengths := [],
    weaknesses := ["Limited gaming hours", "Lacks detailed motivation",
                   "Unclear contribution plans", "Limited time availability"],
    confidencePct := 50,
    finalScore := 22,
    recommendation := "Not recommended" }

/-- C9 witness: the empty payload scores exactly the lower bound 22. -/
theorem C9_witness : 22 ≤ 22 ∧ 22 ≤ 100 :=
  C9_score_range [] 22 emptyAnalysis (by decide)

/-! ## Claim C6 -/

/-- C6: a submission whose payload fails schema validation returns the
field-keyed error map with status 400 and leaves the store exactly as it
was: no application inserted, no activity entry, no XP change — and the
legacy submit path sends no notification at all. -/
theorem C6_validation_failure_no_side_effects (db : Db) (data : Payload) (uid : String)
    (today : Date) (now : Nat) (v : ValidationResult)
    (hval : validate_application_data data today = .ok v)
    (hinvalid : v.valid = false) :
    submit_application db data uid today now
      = .error (⟨400, .validationErrors "Validation failed" v.errors⟩, db) := by
  unfold submit_application
  rw [hval]
  simp [hinvalid]

/-- The error map the validator produces on an empty payload: every
required field flagged. -/
def emptyPayloadErrors : List (String × String) :=
  all_required.map (fun f => (f, requiredMsg f))

/-- C6 witness: the empty payload — validation fails on all ten required
fields and the store comes back untouched. -/
theorem C6_witness :
    submit_application dbEmpty [] "u" ⟨2024, 1, 1⟩ 0
      = .error (⟨400, .validationErrors "Validation failed" emptyPayloadErrors⟩, dbEmpty) :=
  C6_validation_failure_no_side_effects dbEmpty [] "u" ⟨2024, 1, 1⟩ 0
    ⟨false, emptyPayloadErrors⟩ (by decide) rfl

/-! ## Claim C1 -/

/-- C1: `create_indexes` declares NO unique index over `applications` —
its compound `(user_id, status)` index is non-unique, and the only unique
index in the whole file is `users.discord_id` — so two concurrent
submissions by one applicant, interleaved as check-check-insert-insert
around the read-then-write guard of `submit_application`, leave TWO
`pending` records for that applicant: nothing enforces the uniqueness
transactionally at insert time. -/
theorem C1_duplicate_pending_under_race :
    countPending (racedSubmitPair create_indexes [] "applicant") "applicant" = 2
    ∧ (create_indexes.filter (fun s => s.collection == "applications")).all
        (fun s => !s.unique) = true
    ∧ (create_indexes.filter (fun s => s.unique)).map (fun s => (s.collection, s.keys))
        = [("users", [("discord_id", 1)])] := by
  decide

end Maestros
